import Mathlib

/-
Verification of the reliable-delivery notification core of the
TwoToneEnhancements repository: the retry/backoff loops of
`ttd_pre_notification.py` (v1.7.9) and `ttd_transcribed.py`, the earlier
pre-notification variant shipped as `src/unnamed/part_000` (v1.7.1), the
rate-limited alerters of `ttd_heartbeat_monitor.py` and `ttd_backup.py`,
the heartbeat check and poll loop, and the backup script's `main`.

Shallow embedding: each network request's outcome is an explicit input
(a function from 0-based attempt index to an outcome), time is an
explicit `Int` parameter threaded through stateful code, Python `while`
loops become structural recursion on a fuel argument that equals the
number of loop iterations still allowed by the loop guard, and side
effects (sleeps, notification calls) are returned as explicit traces.
-/

/-- Outcome of one `requests.post` call in the pre-notification scripts,
split exactly along the four `except` clauses of `send_webhook`:
`requests.exceptions.ConnectionError`, `requests.exceptions.Timeout`,
`requests.exceptions.HTTPError` (raised by `raise_for_status`), and the
catch-all `requests.exceptions.RequestException`. -/
inductive ReqOutcome
  | success
  | connErr
  | timeoutErr
  | httpErr
  | reqErr
deriving DecidableEq, Repr

namespace PreNotif

/-- Embeds the `while attempt < retries` loop of `send_webhook` in
`src/ttd_pre_notification.py` (lines 221-266).  `o n` is the outcome of
the `requests.post` on the iteration with loop variable `attempt = n`.
`fuel` equals `retries - attempt` (the number of iterations the guard
still allows), so `fuel = 0` is exactly the guard `attempt < retries`
failing, after which the source returns `False` (line 266).
Result: `(returned bool, number of post attempts performed, sleep trace)`
where each sleep is recorded as `(attempt index that failed, seconds)`.
On `connErr` the source sleeps 1 second and leaves `backoff_time`
unchanged (lines 233-239); on the other three failure classes it sleeps
`backoff_time` seconds and multiplies `backoff_time` by
`backoff_multiplier` (lines 241-260), in both cases only when
`attempt < retries - 1`. -/
def swGo (o : Nat → ReqOutcome) (mult retries : Nat) :
    Nat → Nat → Nat → Bool × Nat × List (Nat × Nat)
  | _attempt, _backoff, 0 => (false, retries, [])
  | attempt, backoff, fuel + 1 =>
    match o attempt with
    | .success => (true, attempt + 1, [])
    | .connErr =>
      let r := swGo o mult retries (attempt + 1) backoff fuel
      if attempt < retries - 1 then (r.1, r.2.1, (attempt, 1) :: r.2.2) else r
    | .timeoutErr =>
      if attempt < retries - 1 then
        let r := swGo o mult retries (attempt + 1) (backoff * mult) fuel
        (r.1, r.2.1, (attempt, backoff) :: r.2.2)
      else swGo o mult retries (attempt + 1) backoff fuel
    | .httpErr =>
      if attempt < retries - 1 then
        let r := swGo o mult retries (attempt + 1) (backoff * mult) fuel
        (r.1, r.2.1, (attempt, backoff) :: r.2.2)
      else swGo o mult retries (attempt + 1) backoff fuel
    | .reqErr =>
      if attempt < retries - 1 then
        let r := swGo o mult retries (attempt + 1) (backoff * mult) fuel
        (r.1, r.2.1, (attempt, backoff) :: r.2.2)
      else swGo o mult retries (attempt + 1) backoff fuel

/-- Embeds `send_webhook(file_name, topic, retries)` of
`src/ttd_pre_notification.py`: the loop starts with `attempt = 0` and
`backoff_time = initial_backoff` (lines 221-222). -/
def sendWebhook (retries initialBackoff mult : Nat) (o : Nat → ReqOutcome) :
    Bool × Nat × List (Nat × Nat) :=
  swGo o mult retries 0 initialBackoff retries

/-- The failure classes that use the exponential schedule in
`send_webhook` (Timeout, HTTPError and the general RequestException);
`connErr` instead sleeps a fixed 1 second without touching
`backoff_time`. -/
def isExpClass : ReqOutcome → Bool
  | .timeoutErr => true
  | .httpErr => true
  | .reqErr => true
  | _ => false

/-- Number of attempts with index `< n` whose outcome is an
exponential-schedule failure class; this is the number of times
`backoff_time *= backoff_multiplier` has run when the loop reaches
`attempt = n` (for `n` at most `retries - 1`). -/
def expCount (o : Nat → ReqOutcome) (n : Nat) : Nat :=
  (List.range n).countP (fun j => isExpClass (o j))

/-- Embeds `main()` of `src/ttd_pre_notification.py` (lines 308-329),
counting calls to `send_error_notification` (the script's Pushover
alert, lines 273-303).  `send_webhook` contains no call to it, and on a
`False` result `main` only logs (line 327): `send_error_notification`
has no call site anywhere in the v1.7.9 module, so the count is 0 on
both branches. -/
def mainPushoverCalls (retries initialBackoff mult : Nat)
    (o : Nat → ReqOutcome) : Nat :=
  let res := sendWebhook retries initialBackoff mult o
  match res.1 with
  | true => 0
  | false => 0

end PreNotif

namespace PreNotifOld

/-- Embeds the `while attempt < retries` loop of `send_webhook` in
`src/unnamed/part_000` (v1.7.1 of the pre-notification script).  Same
loop shape as v1.7.9, but every `except` branch first calls
`send_error_notification(...)`, the initial backoff is the literal 5
and the multiplier the literal 2, and after the loop the source calls
`send_error_notification` once more ("Webhook failed after N attempts")
before returning `False`.  Result: `(returned bool, post attempts,
number of send_error_notification calls)`. -/
def swGo (o : Nat → ReqOutcome) (retries : Nat) :
    Nat → Nat → Nat → Bool × Nat × Nat
  | _attempt, _backoff, 0 => (false, retries, 1)
  | attempt, backoff, fuel + 1 =>
    match o attempt with
    | .success => (true, attempt + 1, 0)
    | .connErr =>
      let r := swGo o retries (attempt + 1) backoff fuel
      (r.1, r.2.1, 1 + r.2.2)
    | .timeoutErr =>
      let r :=
        if attempt < retries - 1 then swGo o retries (attempt + 1) (backoff * 2) fuel
        else swGo o retries (attempt + 1) backoff fuel
      (r.1, r.2.1, 1 + r.2.2)
    | .httpErr =>
      let r :=
        if attempt < retries - 1 then swGo o retries (attempt + 1) (backoff * 2) fuel
        else swGo o retries (attempt + 1) backoff fuel
      (r.1, r.2.1, 1 + r.2.2)
    | .reqErr =>
      let r :=
        if attempt < retries - 1 then swGo o retries (attempt + 1) (backoff * 2) fuel
        else swGo o retries (attempt + 1) backoff fuel
      (r.1, r.2.1, 1 + r.2.2)

/-- Embeds `send_webhook(file_name, topic, retries)` of
`src/unnamed/part_000`: `attempt = 0`, `backoff_time = 5`. -/
def sendWebhook (retries : Nat) (o : Nat → ReqOutcome) : Bool × Nat × Nat :=
  swGo o retries 0 5 retries

end PreNotifOld

namespace Transcribed

/-- Result of one run of `send_webhook` in `src/ttd_transcribed.py`:
the returned bool, the number of post attempts performed, the sleep
trace `(0-based index of the failed attempt, seconds slept)`, and
whether the terminal "Webhook Failed" Pushover notification after the
loop (lines 460-466) was sent. -/
structure TwResult where
  ok : Bool
  attempts : Nat
  sleeps : List (Nat × Nat)
  terminalAlert : Bool
deriving DecidableEq, Repr

/-- Embeds the `while attempt < retry_limit` loop of `send_webhook` in
`src/ttd_transcribed.py` (lines 439-466).  On failure the source does
`attempt += 1`; if `attempt < retry_limit` it sleeps
`min(backoff * 2 ** (attempt - 1), 60)` where `backoff` stays equal to
`initial_retry_delay` (it is never reassigned), else it breaks.  Both
the break and the guard failing fall through to the terminal Pushover
notification and `return False`.  `fuel` equals `retryLimit - attempt`. -/
def twGo (o : Nat → Bool) (retryLimit initialDelay : Nat) :
    Nat → Nat → TwResult
  | attempt, 0 => ⟨false, attempt, [], true⟩
  | attempt, fuel + 1 =>
    if o attempt then ⟨true, attempt + 1, [], false⟩
    else
      let a2 := attempt + 1
      if a2 < retryLimit then
        let w := min (initialDelay * 2 ^ (a2 - 1)) 60
        let r := twGo o retryLimit initialDelay a2 fuel
        ⟨r.ok, r.attempts, (attempt, w) :: r.sleeps, r.terminalAlert⟩
      else ⟨false, a2, [], true⟩

/-- Embeds `send_webhook(...)` of `src/ttd_transcribed.py`: `o n = true`
means the post on the iteration with `attempt = n` succeeded; any
`aiohttp.ClientError` / `asyncio.TimeoutError` is a single failure case
(the source has one catch clause for both). -/
def sendWebhook (retryLimit initialDelay : Nat) (o : Nat → Bool) : TwResult :=
  twGo o retryLimit initialDelay 0 retryLimit

end Transcribed

namespace Heartbeat

/-- Result of one `send_alert` call in `src/ttd_heartbeat_monitor.py`:
the new value of the module-global `last_alert_time`, whether the body
that attempts delivery ran (i.e. the call was not suppressed), and
whether the webhook post and the Pushover post actually succeeded. -/
structure AlertResult where
  lastAlert : Option Int
  attempted : Bool
  webhookDelivered : Bool
  pushoverDelivered : Bool
deriving DecidableEq, Repr

/-- Embeds `send_alert(message, relaunching, relaunch_success)` of
`src/ttd_heartbeat_monitor.py` (lines 259-302).  `enableRL` is the
config toggle `enable_rate_limiting`; `relaunching` only affects the
log text in the source and plays no role in the control flow; `now` is
`time.time()` at the call; `last` is the global `last_alert_time`
(initially `None`, line 257).  The source computes
`apply_rate_limit = enable_rate_limiting and not relaunch_success` and
delivers when `not apply_rate_limit or (last_alert_time is None or
(current_time - last_alert_time) > 300)` (strict `>`, 5-minute
cooldown, line 281), assigning `last_alert_time = current_time` first
(line 282) and then posting to the webhook and to Pushover, each inside
a try/except that only logs on failure — so `last_alert_time` is
updated whether or not either post succeeds.  `webhookOk` / `pushoverOk`
are the outcomes of those two posts. -/
def sendAlert (enableRL relaunching relaunchSuccess webhookOk pushoverOk : Bool)
    (now : Int) (last : Option Int) : AlertResult :=
  let _ := relaunching
  let applyRateLimit := enableRL && !relaunchSuccess
  if !applyRateLimit || (match last with
      | none => true
      | some t => now - t > 300) then
    ⟨some now, true, webhookOk, pushoverOk⟩
  else
    ⟨last, false, false, false⟩

/-- State of the heartbeat liveness file as seen by `check_heartbeat`:
readable with a numeric timestamp, readable with non-numeric content
(`int(float(...))` raises `ValueError`), missing (`open` raises
`FileNotFoundError`), or failing with any other error (the catch-all
`except Exception`). -/
inductive FileState
  | content (ts : Int)
  | invalidData
  | missing
  | otherError
deriving DecidableEq, Repr

/-- Python exception kinds that the body of `check_heartbeat` can raise
and its handlers catch. -/
inductive HBExc
  | fileNotFound
  | valueError
  | otherExc
deriving DecidableEq, Repr

/-- The try-block body of `check_heartbeat` (lines 225-238 of
`src/ttd_heartbeat_monitor.py`) with exception propagation explicit:
read the file (may raise), compute `time_diff = current_time -
last_heartbeat`, return `False` when `time_diff > heartbeat_threshold`
and `True` otherwise. -/
def checkHeartbeatBody (fs : FileState) (threshold now : Int) :
    Except HBExc Bool :=
  match fs with
  | .missing => .error .fileNotFound
  | .invalidData => .error .valueError
  | .otherError => .error .otherExc
  | .content ts =>
    let timeDiff := now - ts
    if timeDiff > threshold then .ok false else .ok true

/-- Embeds `check_heartbeat()` of `src/ttd_heartbeat_monitor.py`
(lines 210-251) including its handlers: `except FileNotFoundError`,
`except ValueError` and `except Exception` each log and `return False`,
so every exception the body raises is caught. -/
def checkHeartbeat (fs : FileState) (threshold now : Int) : Bool :=
  match checkHeartbeatBody fs threshold now with
  | .ok b => b
  | .error .fileNotFound => false
  | .error .valueError => false
  | .error .otherExc => false

/-- Observable actions of the heartbeat monitor's poll loop and of
`start_external_script`: a `send_alert` call (with its flags and
whether it was suppressed by the rate limiter), the act of invoking the
external restart script, and one subprocess run of that script with its
success flag (`returncode == 0`). -/
inductive HBAction
  | alertCall (relaunching relaunchSuccess attempted : Bool)
  | recoveryInvocation
  | scriptRun (ok : Bool)
deriving DecidableEq, Repr

/-- Mutable state threaded through the poll loop: the current value of
`time.time()` and the module-global `last_alert_time`. -/
structure HBState where
  t : Int
  lastAlert : Option Int
deriving DecidableEq, Repr

/-- One `send_alert` call inside the loop models, with both channel
posts treated as succeeding (their outcome does not feed back into any
control flow or state of the source). -/
def alertStep (enableRL relaunching relaunchSuccess : Bool) (s : HBState) :
    HBState × HBAction :=
  let r := sendAlert enableRL relaunching relaunchSuccess true true s.t s.lastAlert
  (⟨s.t, r.lastAlert⟩, .alertCall relaunching relaunchSuccess r.attempted)

/-- Embeds the `for attempt in range(retries)` loop of
`start_external_script` (lines 309-358 of `src/ttd_heartbeat_monitor.py`)
with `retries = 3`.  `script n` is whether the subprocess run on
iteration `attempt = n` exits with code 0.  On success it sends the
`relaunch_success=True` alert (if `enable_restart_notifications`) and
breaks; on failure it sends the `relaunching=True` "Failed to restart"
alert (if enabled); between iterations it sleeps 5 seconds
(`attempt < retries - 1`), advancing the clock.  `fuel` equals
`retries - attempt`. -/
def sesGo (enableNotifs enableRL : Bool) (script : Nat → Bool)
    (retries : Nat) : Nat → HBState → Nat → HBState × List HBAction
  | _attempt, s, 0 => (s, [])
  | attempt, s, fuel + 1 =>
    let runAct := HBAction.scriptRun (script attempt)
    if script attempt then
      let (s1, acts1) :=
        if enableNotifs then
          let (s1, a) := alertStep enableRL false true s
          (s1, [a])
        else (s, [])
      (s1, runAct :: acts1)
    else
      let (s1, acts1) :=
        if enableNotifs then
          let (s1, a) := alertStep enableRL true false s
          (s1, [a])
        else (s, [])
      let s2 := if attempt < retries - 1 then { s1 with t := s1.t + 5 } else s1
      let (s3, acts3) := sesGo enableNotifs enableRL script retries (attempt + 1) s2 fuel
      (s3, runAct :: (acts1 ++ acts3))

/-- Embeds `start_external_script()` of `src/ttd_heartbeat_monitor.py`:
`retries = 3`, loop from `attempt = 0`. -/
def startExternalScript (enableNotifs enableRL : Bool)
    (script : Nat → Bool) (s : HBState) : HBState × List HBAction :=
  sesGo enableNotifs enableRL script 3 0 s 3

/-- One iteration of the `while True` poll loop of
`src/ttd_heartbeat_monitor.py` (lines 423-434).  `checkOk` is the value
of `check_heartbeat()`; `script` gives this tick's subprocess outcomes.
On a missed heartbeat the loop calls
`send_alert("Heartbeat not detected...", relaunching=True)` (line 427),
then `start_external_script()` (line 428), then sleeps `check_interval`
(line 429); in every iteration it then sleeps `check_interval` again
(line 431).  The trailing `cleanup_logs()` call only deletes old log
files and is elided.  The `recoveryInvocation` marker records the call
to `start_external_script`. -/
def pollTick (enableNotifs enableRL : Bool) (interval : Int)
    (checkOk : Bool) (script : Nat → Bool) (s : HBState) :
    HBState × List HBAction :=
  if checkOk then ({ s with t := s.t + interval }, [])
  else
    let (s1, a1) := alertStep enableRL true false s
    let (s2, acts2) := startExternalScript enableNotifs enableRL script s1
    ({ s2 with t := s2.t + interval + interval },
      a1 :: HBAction.recoveryInvocation :: acts2)

/-- A finite prefix of the poll loop: one entry per iteration, carrying
that tick's `check_heartbeat()` value and subprocess outcomes. -/
def pollLoop (enableNotifs enableRL : Bool) (interval : Int) :
    List (Bool × (Nat → Bool)) → HBState → HBState × List HBAction
  | [], s => (s, [])
  | tick :: rest, s =>
    let (s1, acts1) := pollTick enableNotifs enableRL interval tick.1 tick.2 s
    let (s2, acts2) := pollLoop enableNotifs enableRL interval rest s1
    (s2, acts1 ++ acts2)

/-- Number of `start_external_script` invocations in an action trace. -/
def countRecovery (acts : List HBAction) : Nat :=
  acts.countP (fun a => a = HBAction.recoveryInvocation)

end Heartbeat

namespace Backup

/-- Result of one `send_pushover_notification` call in
`src/ttd_backup.py`: the new value of the global `last_pushover_time`,
whether the call got past the rate limiter, and whether the post
actually succeeded. -/
structure PushResult where
  lastTime : Int
  attempted : Bool
  delivered : Bool
deriving DecidableEq, Repr

/-- Embeds `send_pushover_notification(message, title, priority)` of
`src/ttd_backup.py` (lines 98-124).  If
`current_time - last_pushover_time < pushover_rate_limit` the call
returns without delivering (lines 103-105); otherwise it assigns
`last_pushover_time = current_time` (line 107) and posts, the post's
failure being caught and only logged — so `last_pushover_time` is
updated whether or not the post succeeds.  `postOk` is the outcome of
the `requests.post`. -/
def sendPushoverNotification (rateLimit : Int) (postOk : Bool)
    (now last : Int) : PushResult :=
  if now - last < rateLimit then ⟨last, false, false⟩
  else ⟨now, true, postOk⟩

/-- The distinct messages passed to `send_pushover_notification` on the
paths through `main()` of `src/ttd_backup.py` that the embedding
tracks. -/
inductive BMsg
  | compressionFailed
  | ftpConnectionFailed
  | md5Critical
  | retentionFailed
  | verificationFailed
  | criticalError
  | completionSuccess
deriving DecidableEq, Repr

/-- Embeds the control flow of `main()` in `src/ttd_backup.py`
(lines 325-377), recording the sequence of
`send_pushover_notification(...)` calls it makes.  Each flag is whether
the named step completes without raising:
`delete_audio_files` raises into `main`'s `except` without an alert of
its own; `compress_directory_to_zip` sends `compressionFailed` itself
(line 174) and re-raises; a failed `connect_to_ftp` sends
`ftpConnectionFailed` itself (line 150) and returns `None`, upon which
`main` returns (line 342); a failed `upload_file_to_ftp` sends
`md5Critical` (line 227) and returns `False` (its intermediate
download/hash alerts on exception paths are elided — they cannot occur
on the plain hash-mismatch path modelled here); `manage_backup_retention`
and `perform_backup_verification` catch internally and send
`retentionFailed` / `verificationFailed` on failure without raising;
`ftp.quit()` failure is caught and only logged; `manage_log_retention`
has no handler, so its failure raises into `main`'s `except`.  `main`'s
`except` sends `criticalError` (line 363); the `finally` block always
sends `completionSuccess` ("Backup script completed successfully.",
line 377). -/
def backupMain (deleteOk compressOk connectOk uploadOk retentionOk
    verifyOk logRetOk : Bool) : List BMsg :=
  let tryPart : List BMsg × Bool :=
    if !deleteOk then ([], true)
    else if !compressOk then ([.compressionFailed], true)
    else if !connectOk then ([.ftpConnectionFailed], false)
    else
      let uploadMsgs : List BMsg := if uploadOk then [] else [.md5Critical]
      let postUpload : List BMsg :=
        if uploadOk then
          (if retentionOk then [] else [.retentionFailed]) ++
            (if verifyOk then [] else [.verificationFailed])
        else []
      (uploadMsgs ++ postUpload, !logRetOk)
  let afterExcept :=
    tryPart.1 ++ (if tryPart.2 then [BMsg.criticalError] else [])
  afterExcept ++ [BMsg.completionSuccess]

end Backup

/-
Helper lemmas about the retry loops.
-/

/-- If every attempt fails, the v1.7.9 pre-notification loop runs until
its guard fails and reports `retries` attempts and `False`. -/
theorem PreNotif.swGo_allFail (o : Nat → ReqOutcome) (mult retries : Nat)
    (h : ∀ n, o n ≠ .success) :
    ∀ fuel attempt backoff, attempt + fuel = retries →
      (PreNotif.swGo o mult retries attempt backoff fuel).1 = false ∧
      (PreNotif.swGo o mult retries attempt backoff fuel).2.1 = retries := by
  intro fuel
  induction fuel with
  | zero => intro attempt backoff _; exact ⟨rfl, rfl⟩
  | succ fuel ih =>
    intro attempt backoff hsum
    have hsum2 : attempt + 1 + fuel = retries := by omega
    cases hcase : o attempt with
    | success => exact absurd hcase (h attempt)
    | connErr =>
      have := ih (attempt + 1) backoff hsum2
      simp only [PreNotif.swGo, hcase]
      split <;> simpa using this
    | timeoutErr =>
      have h1 := ih (attempt + 1) (backoff * mult) hsum2
      have h2 := ih (attempt + 1) backoff hsum2
      simp only [PreNotif.swGo, hcase]
      split <;> simp_all
    | httpErr =>
      have h1 := ih (attempt + 1) (backoff * mult) hsum2
      have h2 := ih (attempt + 1) backoff hsum2
      simp only [PreNotif.swGo, hcase]
      split <;> simp_all
    | reqErr =>
      have h1 := ih (attempt + 1) (backoff * mult) hsum2
      have h2 := ih (attempt + 1) backoff hsum2
      simp only [PreNotif.swGo, hcase]
      split <;> simp_all

/-- If every attempt fails, the transcribed-script loop runs until its
guard fails (or breaks on the last failure), reporting `retryLimit`
attempts, `False`, and the terminal Pushover alert. -/
theorem Transcribed.twGo_allFail (o : Nat → Bool) (retryLimit initialDelay : Nat)
    (h : ∀ n, o n = false) :
    ∀ fuel attempt, attempt + fuel = retryLimit →
      (Transcribed.twGo o retryLimit initialDelay attempt fuel).ok = false ∧
      (Transcribed.twGo o retryLimit initialDelay attempt fuel).attempts = retryLimit ∧
      (Transcribed.twGo o retryLimit initialDelay attempt fuel).terminalAlert = true := by
  intro fuel
  induction fuel with
  | zero =>
    intro attempt hsum
    refine ⟨rfl, ?_, rfl⟩
    simpa [Transcribed.twGo] using by omega
  | succ fuel ih =>
    intro attempt hsum
    have hsum2 : attempt + 1 + fuel = retryLimit := by omega
    have hfail := h attempt
    by_cases hlt : attempt + 1 < retryLimit
    · have := ih (attempt + 1) hsum2
      simp only [Transcribed.twGo, hfail, hlt]
      simpa using this
    · have heq : attempt + 1 = retryLimit := by omega
      simp [Transcribed.twGo, hfail, hlt, heq]

/-- C1: with a retry budget of N attempts (N at least 1) and an
operation that fails on every attempt, one invocation of the delivery
loop performs exactly N attempts — never fewer, never more — and
returns the terminal failure result (the function returns False after
the N-th attempt), in both `send_webhook` of `ttd_pre_notification.py`
and `send_webhook` of `ttd_transcribed.py`. -/
theorem c1_retry_budget_exhaustion (N initialBackoff mult initialDelay : Nat)
    (o₁ : Nat → ReqOutcome) (o₂ : Nat → Bool) (_hN : 1 ≤ N)
    (h₁ : ∀ n, o₁ n ≠ .success) (h₂ : ∀ n, o₂ n = false) :
    (PreNotif.sendWebhook N initialBackoff mult o₁).1 = false ∧
    (PreNotif.sendWebhook N initialBackoff mult o₁).2.1 = N ∧
    (Transcribed.sendWebhook N initialDelay o₂).ok = false ∧
    (Transcribed.sendWebhook N initialDelay o₂).attempts = N := by
  have hp := PreNotif.swGo_allFail o₁ mult N h₁ N 0 initialBackoff (by omega)
  have ht := Transcribed.twGo_allFail o₂ N initialDelay h₂ N 0 (by omega)
  exact ⟨hp.1, hp.2, ht.1, ht.2.1⟩

/-- Witness for C1 at N = 3 with every attempt failing by timeout. -/
theorem c1_retry_budget_exhaustion_witness :
    (PreNotif.sendWebhook 3 5 2 (fun _ => .timeoutErr)).1 = false ∧
    (PreNotif.sendWebhook 3 5 2 (fun _ => .timeoutErr)).2.1 = 3 ∧
    (Transcribed.sendWebhook 3 5 (fun _ => false)).ok = false ∧
    (Transcribed.sendWebhook 3 5 (fun _ => false)).attempts = 3 :=
  c1_retry_budget_exhaustion 3 5 2 5 (fun _ => .timeoutErr) (fun _ => false)
    (by decide) (by intro n; simp) (fun _ => rfl)

/-- If the first success is at 0-based index m with m < retries, the
v1.7.9 pre-notification loop returns True with m + 1 attempts. -/
theorem PreNotif.swGo_firstSuccess (o : Nat → ReqOutcome) (mult retries m : Nat)
    (hm : m < retries) (hsucc : o m = .success)
    (hbefore : ∀ j, j < m → o j ≠ .success) :
    ∀ fuel attempt backoff, attempt + fuel = retries → attempt ≤ m →
      (PreNotif.swGo o mult retries attempt backoff fuel).1 = true ∧
      (PreNotif.swGo o mult retries attempt backoff fuel).2.1 = m + 1 := by
  intro fuel
  induction fuel with
  | zero => intro attempt backoff hsum hle; omega
  | succ fuel ih =>
    intro attempt backoff hsum hle
    by_cases heq : attempt = m
    · subst heq
      simp [PreNotif.swGo, hsucc]
    · have hlt : attempt < m := by omega
      have hsum2 : attempt + 1 + fuel = retries := by omega
      have hle2 : attempt + 1 ≤ m := by omega
      have hne := hbefore attempt hlt
      cases hcase : o attempt with
      | success => exact absurd hcase hne
      | connErr =>
        have := ih (attempt + 1) backoff hsum2 hle2
        simp only [PreNotif.swGo, hcase]
        split <;> simpa using this
      | timeoutErr =>
        have h1 := ih (attempt + 1) (backoff * mult) hsum2 hle2
        have h2 := ih (attempt + 1) backoff hsum2 hle2
        simp only [PreNotif.swGo, hcase]
        split <;> simp_all
      | httpErr =>
        have h1 := ih (attempt + 1) (backoff * mult) hsum2 hle2
        have h2 := ih (attempt + 1) backoff hsum2 hle2
        simp only [PreNotif.swGo, hcase]
        split <;> simp_all
      | reqErr =>
        have h1 := ih (attempt + 1) (backoff * mult) hsum2 hle2
        have h2 := ih (attempt + 1) backoff hsum2 hle2
        simp only [PreNotif.swGo, hcase]
        split <;> simp_all

/-- If the first success is at 0-based index m with m < retryLimit, the
transcribed-script loop returns True with m + 1 attempts and no
terminal alert. -/
theorem Transcribed.twGo_firstSuccess (o : Nat → Bool)
    (retryLimit initialDelay m : Nat) (hm : m < retryLimit)
    (hsucc : o m = true) (hbefore : ∀ j, j < m → o j = false) :
    ∀ fuel attempt, attempt + fuel = retryLimit → attempt ≤ m →
      (Transcribed.twGo o retryLimit initialDelay attempt fuel).ok = true ∧
      (Transcribed.twGo o retryLimit initialDelay attempt fuel).attempts = m + 1 ∧
      (Transcribed.twGo o retryLimit initialDelay attempt fuel).terminalAlert = false := by
  intro fuel
  induction fuel with
  | zero => intro attempt hsum hle; omega
  | succ fuel ih =>
    intro attempt hsum hle
    by_cases heq : attempt = m
    · subst heq
      simp [Transcribed.twGo, hsucc]
    · have hlt : attempt < m := by omega
      have hfail := hbefore attempt hlt
      have hsum2 : attempt + 1 + fuel = retryLimit := by omega
      have hlt2 : attempt + 1 < retryLimit := by omega
      have := ih (attempt + 1) hsum2 (by omega)
      simp only [Transcribed.twGo, hfail, hlt2]
      simpa using this

/-- C2: for every N at least 1 and an operation whose first success is
on attempt k (1-based) with k at most N, the delivery loop returns True
immediately after attempt k and performs no further attempts, in both
`send_webhook` of `ttd_pre_notification.py` and `send_webhook` of
`ttd_transcribed.py` (where in addition no terminal-failure alert is
sent). -/
theorem c2_success_stops_loop (N initialBackoff mult initialDelay k : Nat)
    (o₁ : Nat → ReqOutcome) (o₂ : Nat → Bool) (hk : 1 ≤ k) (hkN : k ≤ N)
    (h₁ : o₁ (k - 1) = .success) (h₁b : ∀ j, j < k - 1 → o₁ j ≠ .success)
    (h₂ : o₂ (k - 1) = true) (h₂b : ∀ j, j < k - 1 → o₂ j = false) :
    (PreNotif.sendWebhook N initialBackoff mult o₁).1 = true ∧
    (PreNotif.sendWebhook N initialBackoff mult o₁).2.1 = k ∧
    (Transcribed.sendWebhook N initialDelay o₂).ok = true ∧
    (Transcribed.sendWebhook N initialDelay o₂).attempts = k ∧
    (Transcribed.sendWebhook N initialDelay o₂).terminalAlert = false := by
  have hm : k - 1 < N := by omega
  have hp := PreNotif.swGo_firstSuccess o₁ mult N (k - 1) hm h₁ h₁b N 0
    initialBackoff (by omega) (by omega)
  have ht := Transcribed.twGo_firstSuccess o₂ N initialDelay (k - 1) hm h₂ h₂b N 0
    (by omega) (by omega)
  have hk1 : k - 1 + 1 = k := by omega
  rw [hk1] at hp ht
  exact ⟨hp.1, hp.2, ht.1, ht.2.1, ht.2.2⟩

/-- Witness for C2 at N = 3, first success on attempt k = 2. -/
theorem c2_success_stops_loop_witness :
    (PreNotif.sendWebhook 3 5 2 (fun n => if n = 1 then .success else .timeoutErr)).1 = true ∧
    (PreNotif.sendWebhook 3 5 2 (fun n => if n = 1 then .success else .timeoutErr)).2.1 = 2 ∧
    (Transcribed.sendWebhook 3 5 (fun n => n == 1)).ok = true ∧
    (Transcribed.sendWebhook 3 5 (fun n => n == 1)).attempts = 2 ∧
    (Transcribed.sendWebhook 3 5 (fun n => n == 1)).terminalAlert = false :=
  c2_success_stops_loop 3 5 2 5 2 (fun n => if n = 1 then .success else .timeoutErr)
    (fun n => n == 1) (by decide) (by decide) (by decide)
    (by intro j hj; interval_cases j <;> decide) (by decide)
    (by intro j hj; interval_cases j <;> decide)

/-- C3 counterexample: in `send_alert` of `ttd_heartbeat_monitor.py`
the cooldown test is the strict `(current_time - last_alert_time) > 300`,
so two suppressible calls separated by exactly the cooldown (300 s)
leave the second call suppressed, although the claim says a call with
elapsed time equal to the cooldown delivers: the first call at time 0
delivers and sets `last_alert_time = 0`, and the second call at time
300 performs no delivery even though 300 - 0 ≥ 300. -/
theorem c3_cooldown_boundary_counterexample :
    (Heartbeat.sendAlert true true false true true 0 none).attempted = true ∧
    (Heartbeat.sendAlert true true false true true 0 none).lastAlert = some 0 ∧
    (Heartbeat.sendAlert true true false true true 300 (some 0)).attempted = false ∧
    (300 : Int) - 0 ≥ 300 := by
  refine ⟨rfl, rfl, ?_, by decide⟩
  decide

/-- C3 amended: a suppressible alert through the heartbeat monitor's
`send_alert` (rate limiting enabled, not a relaunch-success call, with
a recorded previous send) is delivered if and only if
`now - last_sent > 300` — strictly greater, so at an elapsed time of
exactly the 5-minute cooldown the call is suppressed; the backup
script's `send_pushover_notification` instead delivers if and only if
`now - last_sent >= rate_limit`, so there it delivers at exactly the
cooldown.  The `Δt < C` half of the claim holds for both. -/
theorem c3_cooldown_threshold (relaunching webhookOk pushoverOk postOk : Bool)
    (rateLimit now t last : Int) :
    (Heartbeat.sendAlert true relaunching false webhookOk pushoverOk now
        (some t)).attempted = decide (now - t > 300) ∧
    (Backup.sendPushoverNotification rateLimit postOk now last).attempted =
      decide (now - last ≥ rateLimit) := by
  constructor
  · simp only [Heartbeat.sendAlert]
    split <;> simp_all
  · simp only [Backup.sendPushoverNotification]
    split <;> simp_all

/-- C4 counterexample: sending a suppressible alert immediately
followed by a final-failure-class alert with zero elapsed time must,
per the claim, attempt delivery of both; but in
`ttd_heartbeat_monitor.py` the "Failed to restart the program." alert
(`relaunching=True`, `relaunch_success=False`) goes through the same
rate limiter as any suppressible alert and is suppressed, and in
`ttd_backup.py` the critical terminal upload-failure alert
(line 227) is likewise suppressed by the rate limiter at zero elapsed
time (last call at 500, critical alert also at 500, cooldown 300). -/
theorem c4_final_failure_suppressed_counterexample :
    (Heartbeat.sendAlert true false false true true 0 none).attempted = true ∧
    (Heartbeat.sendAlert true true false true true 0 (some 0)).attempted = false ∧
    (Backup.sendPushoverNotification 300 true 500 500).attempted = false := by
  refine ⟨rfl, ?_, ?_⟩ <;> decide

/-- C4 amended: in the heartbeat monitor only the recovery-class alert
(`relaunch_success=True`) bypasses the cooldown — it always attempts
delivery, as does every alert when rate limiting is disabled — while
the final-failure "Failed to restart" alert (`relaunching=True`,
`relaunch_success=False`) is rate-limited exactly like any suppressible
alert; the backup script has no bypass at all, so its critical
final-failure alert attempts delivery only when
`now - last_sent >= rate_limit`. -/
theorem c4_only_recovery_bypasses_cooldown (enableRL relaunching webhookOk
    pushoverOk postOk : Bool) (rateLimit now last : Int) (prev : Option Int)
    (t : Int) :
    (Heartbeat.sendAlert enableRL relaunching true webhookOk pushoverOk now
        prev).attempted = true ∧
    (Heartbeat.sendAlert false relaunching false webhookOk pushoverOk now
        prev).attempted = true ∧
    (Heartbeat.sendAlert true true false webhookOk pushoverOk now
        (some t)).attempted = decide (now - t > 300) ∧
    (Backup.sendPushoverNotification rateLimit postOk now last).attempted =
      decide (now - last ≥ rateLimit) := by
  refine ⟨?_, ?_, ?_, ?_⟩
  · simp [Heartbeat.sendAlert]
  · simp [Heartbeat.sendAlert]
  · simp only [Heartbeat.sendAlert]
    split <;> simp_all
  · simp only [Backup.sendPushoverNotification]
    split <;> simp_all

/-- C5 counterexample: a call that is not suppressed updates the
last-sent timestamp before contacting the external channel, so a call
whose delivery does not actually occur (both the webhook post and the
Pushover post fail) still mutates it: in the heartbeat monitor
`last_alert_time` goes from `None` to the call time 7 although nothing
was delivered, and in the backup script `last_pushover_time` goes from
0 to 400 although the post failed. -/
theorem c5_last_sent_updated_without_delivery_counterexample :
    (Heartbeat.sendAlert true true false false false 7 none).attempted = true ∧
    (Heartbeat.sendAlert true true false false false 7 none).webhookDelivered = false ∧
    (Heartbeat.sendAlert true true false false false 7 none).pushoverDelivered = false ∧
    (Heartbeat.sendAlert true true false false false 7 none).lastAlert = some 7 ∧
    (Backup.sendPushoverNotification 300 false 400 0).delivered = false ∧
    (Backup.sendPushoverNotification 300 false 400 0).lastTime = 400 := by
  refine ⟨rfl, rfl, rfl, rfl, ?_, ?_⟩ <;> decide

/-- C5 amended: the last-sent timestamp is mutated exactly on
non-suppressed calls (delivery attempts), regardless of whether
delivery to the external notification channel actually occurs: in both
alerters the new last-sent value is the call time when the call got
past the rate limiter and the old value otherwise, and actual delivery
on each channel happens exactly when the call got past the rate limiter
and that channel's post succeeded. -/
theorem c5_last_sent_tracks_attempt (enableRL relaunching relaunchSuccess
    webhookOk pushoverOk postOk : Bool) (rateLimit now last : Int)
    (prev : Option Int) :
    ((Heartbeat.sendAlert enableRL relaunching relaunchSuccess webhookOk
        pushoverOk now prev).lastAlert =
      (if (Heartbeat.sendAlert enableRL relaunching relaunchSuccess webhookOk
          pushoverOk now prev).attempted then some now else prev)) ∧
    ((Heartbeat.sendAlert enableRL relaunching relaunchSuccess webhookOk
        pushoverOk now prev).webhookDelivered =
      ((Heartbeat.sendAlert enableRL relaunching relaunchSuccess webhookOk
          pushoverOk now prev).attempted && webhookOk)) ∧
    ((Heartbeat.sendAlert enableRL relaunching relaunchSuccess webhookOk
        pushoverOk now prev).pushoverDelivered =
      ((Heartbeat.sendAlert enableRL relaunching relaunchSuccess webhookOk
          pushoverOk now prev).attempted && pushoverOk)) ∧
    ((Backup.sendPushoverNotification rateLimit postOk now last).lastTime =
      (if (Backup.sendPushoverNotification rateLimit postOk now last).attempted
        then now else last)) ∧
    ((Backup.sendPushoverNotification rateLimit postOk now last).delivered =
      ((Backup.sendPushoverNotification rateLimit postOk now last).attempted &&
        postOk)) := by
  refine ⟨?_, ?_, ?_, ?_, ?_⟩ <;>
    simp only [Heartbeat.sendAlert, Backup.sendPushoverNotification] <;>
    split <;> simp_all

/-- Unfolding step for the count of exponential-class failures. -/
theorem PreNotif.expCount_succ (o : Nat → ReqOutcome) (n : Nat) :
    PreNotif.expCount o (n + 1) =
      PreNotif.expCount o n + (if PreNotif.isExpClass (o n) then 1 else 0) := by
  simp [PreNotif.expCount, List.range_succ, List.countP_append, List.countP_cons]

/-- Characterization of every sleep the v1.7.9 pre-notification loop
performs, given that the loop is entered at `attempt` with the backoff
value the source would hold there (`initial_backoff` multiplied once
per earlier exponential-class failure): a sleep recorded for attempt
index `i` happened because `i < retries - 1`, lasts 1 second on a
connection error, and otherwise lasts
`init * mult ^ (number of exponential-class failures before i)`. -/
theorem PreNotif.swGo_sleep_spec (o : Nat → ReqOutcome) (mult retries init : Nat) :
    ∀ fuel attempt, attempt + fuel = retries →
      ∀ i d, (i, d) ∈ (PreNotif.swGo o mult retries attempt
          (init * mult ^ PreNotif.expCount o attempt) fuel).2.2 →
        i < retries - 1 ∧
        d = (if PreNotif.isExpClass (o i) then
              init * mult ^ PreNotif.expCount o i else 1) := by
  intro fuel
  induction fuel with
  | zero => intro attempt _ i d hmem; simp [PreNotif.swGo] at hmem
  | succ fuel ih =>
    intro attempt hsum i d hmem
    have hsum2 : attempt + 1 + fuel = retries := by omega
    cases hcase : o attempt with
    | success => simp [PreNotif.swGo, hcase] at hmem
    | connErr =>
      have hinv : PreNotif.expCount o (attempt + 1) = PreNotif.expCount o attempt := by
        simp [PreNotif.expCount_succ, hcase, PreNotif.isExpClass]
      simp only [PreNotif.swGo, hcase] at hmem
      by_cases hlt : attempt < retries - 1
      · simp only [if_pos hlt, List.mem_cons] at hmem
        rcases hmem with heq | hmem
        · obtain ⟨rfl, rfl⟩ := Prod.mk.injEq .. ▸ heq
          refine ⟨hlt, ?_⟩
          simp [hcase, PreNotif.isExpClass]
        · exact ih (attempt + 1) hsum2 i d (by rw [hinv]; exact hmem)
      · have hfuel : fuel = 0 := by omega
        subst hfuel
        simp [if_neg hlt, PreNotif.swGo] at hmem
    | timeoutErr =>
      have hinv : PreNotif.expCount o (attempt + 1) = PreNotif.expCount o attempt + 1 := by
        simp [PreNotif.expCount_succ, hcase, PreNotif.isExpClass]
      simp only [PreNotif.swGo, hcase] at hmem
      by_cases hlt : attempt < retries - 1
      · simp only [if_pos hlt, List.mem_cons] at hmem
        rcases hmem with heq | hmem
        · obtain ⟨rfl, rfl⟩ := Prod.mk.injEq .. ▸ heq
          refine ⟨hlt, ?_⟩
          simp [hcase, PreNotif.isExpClass]
        · have hmem2 : (i, d) ∈ (PreNotif.swGo o mult retries (attempt + 1)
              (init * mult ^ PreNotif.expCount o (attempt + 1)) fuel).2.2 := by
            rw [hinv, pow_succ]
            simpa [Nat.mul_assoc] using hmem
          exact ih (attempt + 1) hsum2 i d hmem2
      · have hfuel : fuel = 0 := by omega
        subst hfuel
        simp [if_neg hlt, PreNotif.swGo] at hmem
    | httpErr =>
      have hinv : PreNotif.expCount o (attempt + 1) = PreNotif.expCount o attempt + 1 := by
        simp [PreNotif.expCount_succ, hcase, PreNotif.isExpClass]
      simp only [PreNotif.swGo, hcase] at hmem
      by_cases hlt : attempt < retries - 1
      · simp only [if_pos hlt, List.mem_cons] at hmem
        rcases hmem with heq | hmem
        · obtain ⟨rfl, rfl⟩ := Prod.mk.injEq .. ▸ heq
          refine ⟨hlt, ?_⟩
          simp [hcase, PreNotif.isExpClass]
        · have hmem2 : (i, d) ∈ (PreNotif.swGo o mult retries (attempt + 1)
              (init * mult ^ PreNotif.expCount o (attempt + 1)) fuel).2.2 := by
            rw [hinv, pow_succ]
            simpa [Nat.mul_assoc] using hmem
          exact ih (attempt + 1) hsum2 i d hmem2
      · have hfuel : fuel = 0 := by omega
        subst hfuel
        simp [if_neg hlt, PreNotif.swGo] at hmem
    | reqErr =>
      have hinv : PreNotif.expCount o (attempt + 1) = PreNotif.expCount o attempt + 1 := by
        simp [PreNotif.expCount_succ, hcase, PreNotif.isExpClass]
      simp only [PreNotif.swGo, hcase] at hmem
      by_cases hlt : attempt < retries - 1
      · simp only [if_pos hlt, List.mem_cons] at hmem
        rcases hmem with heq | hmem
        · obtain ⟨rfl, rfl⟩ := Prod.mk.injEq .. ▸ heq
          refine ⟨hlt, ?_⟩
          simp [hcase, PreNotif.isExpClass]
        · have hmem2 : (i, d) ∈ (PreNotif.swGo o mult retries (attempt + 1)
              (init * mult ^ PreNotif.expCount o (attempt + 1)) fuel).2.2 := by
            rw [hinv, pow_succ]
            simpa [Nat.mul_assoc] using hmem
          exact ih (attempt + 1) hsum2 i d hmem2
      · have hfuel : fuel = 0 := by omega
        subst hfuel
        simp [if_neg hlt, PreNotif.swGo] at hmem

/-- Characterization of every sleep the transcribed-script loop
performs: the sleep after the failed attempt with 0-based index `i`
lasts `min(initial_retry_delay * 2 ^ i, 60)` and happens only when
another attempt follows. -/
theorem Transcribed.twGo_sleep_spec (o : Nat → Bool)
    (retryLimit initialDelay : Nat) :
    ∀ fuel attempt, attempt + fuel = retryLimit →
      ∀ i d, (i, d) ∈ (Transcribed.twGo o retryLimit initialDelay attempt fuel).sleeps →
        i + 1 < retryLimit ∧ d = min (initialDelay * 2 ^ i) 60 := by
  intro fuel
  induction fuel with
  | zero => intro attempt _ i d hmem; simp [Transcribed.twGo] at hmem
  | succ fuel ih =>
    intro attempt hsum i d hmem
    have hsum2 : attempt + 1 + fuel = retryLimit := by omega
    cases hok : o attempt with
    | true => simp [Transcribed.twGo, hok] at hmem
    | false =>
      by_cases hlt : attempt + 1 < retryLimit
      · simp only [Transcribed.twGo, hok, Bool.false_eq_true, if_false,
          if_pos hlt, List.mem_cons, Prod.mk.injEq, Nat.add_sub_cancel] at hmem
        rcases hmem with ⟨rfl, rfl⟩ | hmem
        · exact ⟨hlt, rfl⟩
        · exact ih (attempt + 1) hsum2 i d hmem
      · simp [Transcribed.twGo, hok, hlt] at hmem

/-- C6 counterexample: in `send_webhook` of `ttd_pre_notification.py`
the backoff multiplier is applied only after Timeout/HTTP/general
failures, so when attempt 1 fails with a Connection error and attempt 2
(0-based index 1) fails with a Timeout, the wait before attempt 3 is
`initial_backoff = 5`, not `initial_backoff * multiplier^(2-1) = 10` as
the claim requires (budget: retries 3, initial backoff 5,
multiplier 2). -/
theorem c6_backoff_history_counterexample :
    ((1, 5) ∈ (PreNotif.sendWebhook 3 5 2 (fun n =>
        match n with
        | 0 => ReqOutcome.connErr
        | _ => ReqOutcome.timeoutErr)).2.2) ∧
    PreNotif.isExpClass ReqOutcome.timeoutErr = true ∧
    (5 : Nat) ≠ 5 * 2 ^ (2 - 1) := by
  refine ⟨?_, rfl, by decide⟩
  decide

/-- C6 amended: in `send_webhook` of `ttd_transcribed.py` the wait
after a failed attempt n (1-based) is
`min(initial_retry_delay * 2^(n-1), 60)` — the claimed formula with
multiplier 2 and cap 60 — regardless of history (all failures are one
class there).  In `send_webhook` of `ttd_pre_notification.py` there is
no cap and the exponent is not `n - 1` but the number of earlier
attempts that failed with a Timeout/HTTP/general error: the wait after
an attempt with 0-based index i that fails with one of those classes is
`initial_backoff * multiplier^(number of such failures among attempts
before i)` (and 1 second after a Connection failure); the claimed
formula holds exactly when no earlier attempt failed with a Connection
error. -/
theorem c6_backoff_schedule (o₁ : Nat → ReqOutcome) (o₂ : Nat → Bool)
    (N initialBackoff mult retryLimit initialDelay i d j e : Nat)
    (h₁ : (i, d) ∈ (PreNotif.sendWebhook N initialBackoff mult o₁).2.2)
    (h₂ : (j, e) ∈ (Transcribed.sendWebhook retryLimit initialDelay o₂).sleeps) :
    i < N - 1 ∧
    d = (if PreNotif.isExpClass (o₁ i) then
          initialBackoff * mult ^ PreNotif.expCount o₁ i else 1) ∧
    j + 1 < retryLimit ∧ e = min (initialDelay * 2 ^ j) 60 := by
  have hp := PreNotif.swGo_sleep_spec o₁ mult N initialBackoff N 0 (by omega) i d
    (by simpa [PreNotif.sendWebhook, PreNotif.expCount] using h₁)
  have ht := Transcribed.twGo_sleep_spec o₂ retryLimit initialDelay retryLimit 0
    (by omega) j e h₂
  exact ⟨hp.1, hp.2, ht.1, ht.2⟩

/-- Witness for C6 amended: three HTTP-error attempts in the
pre-notification loop sleep 5 then 10 seconds, and the non-connection
formula gives 10 at index 1; three failures in the transcribed loop
sleep 5 then 10 with the capped formula. -/
theorem c6_backoff_schedule_witness :
    ((1, 10) ∈ (PreNotif.sendWebhook 3 5 2 (fun _ => ReqOutcome.httpErr)).2.2) ∧
    ((1, 10) ∈ (Transcribed.sendWebhook 3 5 (fun _ => false)).sleeps) ∧
    (1 < 3 - 1 ∧
      10 = (if PreNotif.isExpClass ((fun _ => ReqOutcome.httpErr) 1) then
            5 * 2 ^ PreNotif.expCount (fun _ => ReqOutcome.httpErr) 1 else 1) ∧
      1 + 1 < 3 ∧ 10 = min (5 * 2 ^ 1) 60) :=
  ⟨by decide, by decide,
    c6_backoff_schedule (fun _ => ReqOutcome.httpErr) (fun _ => false)
      3 5 2 3 5 1 10 1 10 (by decide) (by decide)⟩

/-- C7: the claim states that every terminal failure of a delivery loop
produces exactly one non-suppressible alert — not zero and not one per
failed attempt.  The repository's own documentation agrees
(`ttd_pre_notification.py` line 20 announces "Pushover notifications
for failures" and the docstring of `send_error_notification`,
lines 277-278, says it is used when a webhook fails after the
configured retries), but in v1.7.9 that function has no call site:
`send_webhook` and `main` only log on terminal failure, so the count of
Pushover alerts for a run whose three attempts all time out is 0; in
the earlier v1.7.1 variant (`src/unnamed/part_000`) the same run makes
4 `send_error_notification` calls (one per failed attempt plus the
terminal one).  This theorem evaluates both models at that failing
input. -/
theorem c7_terminal_failure_alert_counts :
    PreNotif.mainPushoverCalls 3 5 2 (fun _ => ReqOutcome.timeoutErr) = 0 ∧
    (PreNotif.sendWebhook 3 5 2 (fun _ => ReqOutcome.timeoutErr)).1 = false ∧
    (PreNotifOld.sendWebhook 3 (fun _ => ReqOutcome.timeoutErr)).1 = false ∧
    (PreNotifOld.sendWebhook 3 (fun _ => ReqOutcome.timeoutErr)).2.2 = 4 := by
  refine ⟨?_, ?_, ?_, ?_⟩ <;> decide

/-- The restart-script loop of `start_external_script` emits alert and
subprocess-run actions but never a `recoveryInvocation` marker (that
marker records the poll loop's call of `start_external_script`
itself). -/
theorem Heartbeat.sesGo_no_recovery_mem (enableNotifs enableRL : Bool)
    (script : Nat → Bool) (retries : Nat) :
    ∀ fuel attempt s,
      Heartbeat.HBAction.recoveryInvocation ∉
        (Heartbeat.sesGo enableNotifs enableRL script retries attempt s fuel).2 := by
  intro fuel
  induction fuel with
  | zero => intro attempt s; simp [Heartbeat.sesGo]
  | succ fuel ih =>
    intro attempt s
    cases hrun : script attempt <;>
      cases enableNotifs <;>
        simp [Heartbeat.sesGo, Heartbeat.alertStep, hrun, ih]

/-- The restart-script loop of `start_external_script` emits alert and
subprocess-run actions but never a `recoveryInvocation` marker. -/
theorem Heartbeat.sesGo_no_recovery (enableNotifs enableRL : Bool)
    (script : Nat → Bool) (retries : Nat) (fuel attempt : Nat)
    (s : Heartbeat.HBState) :
    Heartbeat.countRecovery
        (Heartbeat.sesGo enableNotifs enableRL script retries attempt s fuel).2 = 0 := by
  refine List.countP_eq_zero.mpr ?_
  intro a ha
  have := Heartbeat.sesGo_no_recovery_mem enableNotifs enableRL script retries
    fuel attempt s
  simp only [decide_eq_true_eq]
  intro heq
  exact this (heq ▸ ha)

/-- One poll-loop iteration invokes `start_external_script` exactly
once when the heartbeat check failed and never when it succeeded. -/
theorem Heartbeat.countRecovery_pollTick (enableNotifs enableRL : Bool)
    (interval : Int) (checkOk : Bool) (script : Nat → Bool)
    (s : Heartbeat.HBState) :
    Heartbeat.countRecovery
        (Heartbeat.pollTick enableNotifs enableRL interval checkOk script s).2 =
      (if checkOk then 0 else 1) := by
  cases checkOk with
  | true => rfl
  | false =>
    simp only [Heartbeat.pollTick, Heartbeat.alertStep, if_false,
      Bool.false_eq_true]
    rw [Heartbeat.countRecovery, List.countP_cons, List.countP_cons]
    have h0 : Heartbeat.countRecovery
        (Heartbeat.startExternalScript enableNotifs enableRL script
          ⟨s.t, (Heartbeat.sendAlert enableRL true false true true s.t
            s.lastAlert).lastAlert⟩).2 = 0 :=
      Heartbeat.sesGo_no_recovery enableNotifs enableRL script 3 3 0 _
    rw [Heartbeat.countRecovery] at h0
    rw [Heartbeat.startExternalScript] at h0
    simp [h0, Heartbeat.startExternalScript]

/-- C8 counterexample: starting from a healthy history (fresh alerter
state, time 0), a single poll tick whose heartbeat check fails already
invokes the external recovery action once — the poll loop of
`ttd_heartbeat_monitor.py` calls `start_external_script()` on the very
first miss, while the claim requires no recovery invocation before
`max_retries` consecutive misses (never on the first miss). -/
theorem c8_recovery_on_first_miss_counterexample :
    Heartbeat.countRecovery ((Heartbeat.pollLoop true true 60
        [(false, fun _ => true)] ⟨0, none⟩).2) = 1 ∧
    ¬ Heartbeat.countRecovery ((Heartbeat.pollLoop true true 60
        [(false, fun _ => true)] ⟨0, none⟩).2) = 0 := by
  refine ⟨?_, ?_⟩ <;> decide

/-- C8 amended: the heartbeat monitor keeps no Degraded counter across
poll ticks; on every poll tick whose check fails it emits one
rate-limited alert call and immediately invokes the external recovery
action (`start_external_script`, which retries the restart internally
up to 3 times with 5-second waits), so over any finite run the number
of recovery invocations equals the number of stale-heartbeat poll
ticks — in particular the action is invoked already on the first miss
and on every subsequent miss of an episode, not once per failure
episode after `max_retries` misses. -/
theorem c8_recovery_every_stale_tick (enableNotifs enableRL : Bool)
    (interval : Int) (ticks : List (Bool × (Nat → Bool)))
    (s : Heartbeat.HBState) :
    Heartbeat.countRecovery
        (Heartbeat.pollLoop enableNotifs enableRL interval ticks s).2 =
      ticks.countP (fun tick => !tick.1) := by
  induction ticks generalizing s with
  | nil => rfl
  | cons tick rest ih =>
    rcases hpt : Heartbeat.pollTick enableNotifs enableRL interval tick.1 tick.2 s
      with ⟨s1, acts1⟩
    rcases hpl : Heartbeat.pollLoop enableNotifs enableRL interval rest s1
      with ⟨s2, acts2⟩
    have hstep : Heartbeat.pollLoop enableNotifs enableRL interval (tick :: rest) s
        = (s2, acts1 ++ acts2) := by
      simp [Heartbeat.pollLoop, hpt, hpl]
    have h1 : Heartbeat.countRecovery acts1 = (if tick.1 then 0 else 1) := by
      have := Heartbeat.countRecovery_pollTick enableNotifs enableRL interval
        tick.1 tick.2 s
      rwa [hpt] at this
    have h2 : Heartbeat.countRecovery acts2 = rest.countP (fun t => !t.1) := by
      have := ih s1
      rwa [hpl] at this
    rw [hstep]
    show (acts1 ++ acts2).countP _ = _
    rw [List.countP_append, List.countP_cons]
    rw [Heartbeat.countRecovery] at h1 h2
    rw [h1, h2]
    cases htick : tick.1 <;> simp [htick] <;> omega

/-- C9: for every state of the heartbeat liveness file — readable with
a numeric timestamp, containing non-numeric data, missing, or failing
with any other error — `check_heartbeat` returns a boolean, equal to
False in every error case (a missed heartbeat) and to the threshold
comparison `now - last_heartbeat <= threshold` otherwise; every
exception its body can raise is caught by its handlers, so none
propagates to the poll loop. -/
theorem c9_check_heartbeat_total (fs : Heartbeat.FileState)
    (threshold now : Int) :
    Heartbeat.checkHeartbeat fs threshold now =
      (match fs with
       | .content ts => decide (now - ts ≤ threshold)
       | _ => false) := by
  cases fs with
  | content ts =>
    simp only [Heartbeat.checkHeartbeat, Heartbeat.checkHeartbeatBody]
    by_cases h : now - ts > threshold
    · rw [if_pos h]
      have hnle : ¬ (now - ts ≤ threshold) := by omega
      simp [hnle]
    · rw [if_neg h]
      have hle : now - ts ≤ threshold := by omega
      simp [hle]
  | invalidData => rfl
  | missing => rfl
  | otherError => rfl

/-- C10: every run of the backup script's `main()` — whichever of its
steps (audio cleanup, compression, FTP connect, upload with
verification, retention, log retention) fail — makes the
"Backup script completed successfully." notification call from its
`finally` block as its last Pushover call, and makes it exactly once,
so a failed backup still emits a success-worded completion alert
(subject only to the rate limiter inside
`send_pushover_notification`). -/
theorem c10_completion_alert_on_every_path (deleteOk compressOk connectOk
    uploadOk retentionOk verifyOk logRetOk : Bool) :
    (Backup.backupMain deleteOk compressOk connectOk uploadOk retentionOk
        verifyOk logRetOk).getLast? = some Backup.BMsg.completionSuccess ∧
    (Backup.backupMain deleteOk compressOk connectOk uploadOk retentionOk
        verifyOk logRetOk).count Backup.BMsg.completionSuccess = 1 := by
  cases deleteOk <;> cases compressOk <;> cases connectOk <;> cases uploadOk <;>
    cases retentionOk <;> cases verifyOk <;> cases logRetOk <;>
      exact ⟨rfl, rfl⟩
